import Mathlib

set_option autoImplicit false

/-! Shallow embedding of the predictor-export orchestration layer of
d2go/export/api.py: the functions convert_and_export_predictor,
export_predictor, default_export_predictor and _export_single_model, the
PredictorExportConfig record, and the export-method registry they consult.
Filesystem effects and external library calls are made observable through an
explicit event trace; machine-level numerics play no role in this module. -/

/-- Error taxonomy for the export layer, one constructor per failure mode the
Python code can raise: drawing on an empty data loader (StopIteration), a
missing prepare_for_export capability, a wrong object kind where a specific
one is required (the isinstance asserts and string-indexing TypeErrors), a
missing-key lookup, duplicate registration, and the batch-norm assertion on
the quantization path. -/
inductive PyErr where
  | stopIteration
  | unsupportedOperation
  | typeConstraint
  | keyNotFound (k : String)
  | duplicateKey (k : String)
  | assertionFailure
deriving DecidableEq

/-- A normalized filesystem path as a list of components; os.path.join of a
directory and one further component appends that component. -/
abbrev FPath := List String

/-- Drops the longest common prefix of two component lists, returning the two
remainders. Helper for the embedding of os.path.relpath. -/
def stripCommon : List String → List String → List String × List String
  | a :: as, b :: bs => if a = b then stripCommon as bs else (a :: as, b :: bs)
  | as, bs => (as, bs)

/-- Embedding of os.path.relpath on normalized component paths: drop the
common prefix, climb with ".." once per remaining component of the start, and
return "." when the result would be empty (identical paths). -/
def relpath (path start : List String) : List String :=
  let rest := stripCommon path start
  let r := List.replicate rest.2.length ".." ++ rest.1
  if r.isEmpty then ["."] else r

/-- Tests whether the pattern appears as a prefix of the character list. -/
def listStartsWith : List Char → List Char → Bool
  | [], _ => true
  | _ :: _, [] => false
  | p :: ps, c :: cs => p == c && listStartsWith ps cs

/-- Tests whether the pattern appears as a contiguous sublist. -/
def hasSub (pat : List Char) : List Char → Bool
  | [] => pat.isEmpty
  | c :: cs => listStartsWith pat (c :: cs) || hasSub pat cs

/-- Embedding of the Python substring test, as in the expression
"int8" in predictor_type. -/
def strContainsSub (s pat : String) : Bool :=
  hasSub pat.data s.data

/-- The quantization-related configuration flags of cfg consumed by
convert_and_export_predictor: QUANTIZATION.QAT.ENABLED,
QUANTIZATION.EAGER_MODE and QUANTIZATION.BACKEND. -/
structure Cfg where
  qat_enabled : Bool
  eager_mode : Bool
  backend : String

/-- A function-descriptor record (FuncInfo of mobile_cv.predictor.api),
identified here by the name of the wrapped function. -/
structure FuncInfo where
  name : String
deriving DecidableEq

/-- Embedding of FuncInfo.gen_func_info restricted to the descriptor name. -/
def FuncInfo.gen_func_info (n : String) : FuncInfo := ⟨n⟩

/-- Descriptor of the IdentityPreprocess builtin, the default preprocess. -/
def identityPreprocessInfo : FuncInfo := FuncInfo.gen_func_info "IdentityPreprocess"

/-- Descriptor of the IdentityPostprocess builtin, the default postprocess. -/
def identityPostprocessInfo : FuncInfo := FuncInfo.gen_func_info "IdentityPostprocess"

/-- Descriptor of the NaiveRunFunc builtin, the default run function. -/
def naiveRunFuncInfo : FuncInfo := FuncInfo.gen_func_info "NaiveRunFunc"

/-- Manifest entry for one exported sub-model (ModelInfo of
mobile_cv.predictor.api): a path relative to the predictor root and the
predictor type tag it was exported under. -/
structure ModelInfo where
  path : FPath
  type : String
deriving DecidableEq

/-- The per-model part of the top-level manifest: either a single ModelInfo
stored under the key model, or a name-to-ModelInfo mapping stored under the
key models. -/
inductive ManifestModels where
  | model (mi : ModelInfo)
  | models (m : List (String × ModelInfo))
deriving DecidableEq

/-- The top-level manifest record (PredictorInfo of mobile_cv.predictor.api):
the three function descriptors plus the per-model entry. -/
structure PredictorInfo where
  preprocess_info : FuncInfo
  postprocess_info : FuncInfo
  run_func_info : FuncInfo
  modelEntry : ManifestModels
deriving DecidableEq

/-- Observable effects of an export run: directory creation
(PathManager.mkdirs), invocation of a registered export method writing the
sub-model files at its save path, the JSON dump of the manifest, the
post-training-quantization calibration call, the warning logged when
batch-norm layers survive fusing, and opaque effects of external code. -/
inductive Event where
  | mkdirs (p : FPath)
  | exportCall (method : String) (save_path : FPath)
  | writeJson (p : FPath) (info : PredictorInfo)
  | ptq
  | warnBN
  | custom (n : Nat)
deriving DecidableEq

/-- A Python-like value for sample inputs and keyword-argument bundles:
enough structure to support the truthiness tests and string indexing the
source performs on them. -/
inductive PyVal where
  | str (s : String)
  | nat (n : Nat)
  | dict (entries : List (String × PyVal))

/-- Python truthiness of a PyVal, as used by the expressions
model_export_method or predictor_type and model_export_kwargs or {}. -/
def PyVal.truthy : PyVal → Bool
  | .str s => !(s == "")
  | .nat n => !(n == 0)
  | .dict d => !d.isEmpty

/-- Indexing a PyVal by a string key: a lookup on a dict (raising a
missing-key error when absent), a type error on anything else. -/
def pyIndex (v : PyVal) (name : String) : Except PyErr PyVal :=
  match v with
  | .dict d =>
    match d.lookup name with
    | some x => .ok x
    | none => .error (.keyNotFound name)
  | _ => .error .typeConstraint

/-- An object offered to the single-model exporter: either an nn.Module
(recognized model object) or some other object, each with an opaque tag. -/
inductive PyObj where
  | module (tag : Nat)
  | other (tag : Nat)
deriving DecidableEq

/-- The model_export_method field's union type: a single string or a mapping
from sub-model name to string. -/
abbrev MethodField := Sum String (List (String × String))

/-- The export configuration record (PredictorExportConfig). The model field
is either a single object or a mapping from name to sub-model, mirroring the
isinstance dict dispatch of default_export_predictor; the optional fields
default to None and the three descriptors default to the identity and naive
builtins, as in the source. -/
inductive ModelField where
  | single (m : PyObj)
  | mapping (entries : List (String × PyObj))

structure PredictorExportConfig where
  model : ModelField
  data_generator : Option (Nat → PyVal) := none
  model_export_method : Option MethodField := none
  model_export_kwargs : Option PyVal := none
  preprocess_info : FuncInfo := identityPreprocessInfo
  postprocess_info : FuncInfo := identityPostprocessInfo
  run_func_info : FuncInfo := naiveRunFuncInfo

/-- A pytorch model object as this layer observes it: the two optional
capabilities probed with hasattr (prepare_for_export and export_predictor),
the optional prepare_for_quant_convert hook of the FX-graph-mode branch, and
an opaque tag distinguishing model states for the external operations. -/
inductive PModel : Type where
  | mk
    (prepare_for_export : Option (Cfg → Nat → String → PredictorExportConfig))
    (export_predictor : Option (Cfg → String → FPath → List Nat → List Event × Except PyErr FPath))
    (prepare_for_quant_convert : Option (Cfg → PModel))
    (tag : Nat)

/-- Accessor for the optional prepare_for_export capability. -/
def PModel.prepare_for_export : PModel → Option (Cfg → Nat → String → PredictorExportConfig)
  | .mk p _ _ _ => p

/-- Accessor for the optional export_predictor capability. -/
def PModel.export_predictor : PModel → Option (Cfg → String → FPath → List Nat → List Event × Except PyErr FPath)
  | .mk _ e _ _ => e

/-- Accessor for the optional prepare_for_quant_convert capability. -/
def PModel.prepare_for_quant_convert : PModel → Option (Cfg → PModel)
  | .mk _ _ q _ => q

/-- Accessor for the opaque state tag of a model object. -/
def PModel.tag : PModel → Nat
  | .mk _ _ _ t => t

/-- The external conversion capabilities convert_and_export_predictor invokes
through narrow interfaces: post_training_quantize, the two batch-norm
inspectors of fuse_utils, fuse_model, and the eager-mode and FX-graph-mode
conversion entry points of torch.quantization. -/
structure Env where
  post_training_quantize : Cfg → PModel → List Nat → PModel
  check_bn_exist : PModel → Bool
  count_bn_exist : PModel → Nat
  fuse_model : PModel → PModel
  quantization_convert : PModel → PModel
  convert_fx : PModel → PModel

/-- Modelled from the spec: the Registry class of
mobile_cv.common.misc.registry is not part of this repository's source (the
source only instantiates it at line 248 with allow_override=True); section
4.1 of the specification gives its contract. A mapping from string keys to
implementations, with a flag permitting overriding registration. -/
structure Registry (α : Type) where
  allow_override : Bool
  entries : List (String × α)

/-- Inserts the pair, replacing the entry of an equal key when present. -/
def setEntry {α : Type} : List (String × α) → String → α → List (String × α)
  | [], k, v => [(k, v)]
  | (k2, v2) :: rest, k, v =>
    if k2 == k then (k, v) :: rest else (k2, v2) :: setEntry rest k v

/-- Modelled from the spec: register(key, impl) inserts or overrides; a
duplicate registration without override permission fails with a
DuplicateKeyError. -/
def Registry.register {α : Type} (r : Registry α) (k : String) (v : α) :
    Except PyErr (Registry α) :=
  if (r.entries.lookup k).isSome && !r.allow_override then
    .error (.duplicateKey k)
  else
    .ok { r with entries := setEntry r.entries k v }

/-- Modelled from the spec: get(key) returns the implementation or fails with
a KeyNotFoundError when the key is absent. -/
def Registry.get {α : Type} (r : Registry α) (k : String) : Except PyErr α :=
  match r.entries.lookup k with
  | some v => .ok v
  | none => .error (.keyNotFound k)

/-- A registered export-method implementation: its export capability takes
the model, the optional sample inputs, the save path and the keyword
arguments, writes the serialized sub-model under the save path, and returns
the load-time keyword arguments together with opaque external effects. -/
structure ExportMethod where
  exportFn : PyObj → Option PyVal → FPath → List (String × PyVal) → PyVal × List Nat

/-- The DefaultCaffe2Export implementation: delegates to the external
export_caffe2 and returns an empty dict of load kwargs. -/
def DefaultCaffe2Export : ExportMethod :=
  ⟨fun _ _ _ _ => (.dict [], [])⟩

/-- The DefaultTorchscriptExport implementation: delegates to the external
trace_and_save_torchscript and returns an empty dict of load kwargs. -/
def DefaultTorchscriptExport : ExportMethod :=
  ⟨fun _ _ _ _ => (.dict [], [])⟩

/-- The DefaultTorchscriptMobileExport implementation: delegates to
trace_and_save_torchscript with a mobile optimization config and returns an
empty dict of load kwargs. -/
def DefaultTorchscriptMobileExport : ExportMethod :=
  ⟨fun _ _ _ _ => (.dict [], [])⟩

/-- The static registration calls decorating the three default export
implementations, with their nine keys. -/
def builtinRegistrations : List (String × ExportMethod) :=
  [("caffe2", DefaultCaffe2Export),
   ("torchscript", DefaultTorchscriptExport),
   ("torchscript@tracing", DefaultTorchscriptExport),
   ("torchscript@scripting", DefaultTorchscriptExport),
   ("torchscript_int8", DefaultTorchscriptExport),
   ("torchscript_int8@tracing", DefaultTorchscriptExport),
   ("torchscript_int8@scripting", DefaultTorchscriptExport),
   ("torchscript_mobile", DefaultTorchscriptMobileExport),
   ("torchscript_mobile_int8", DefaultTorchscriptMobileExport)]

/-- The process-wide registry, allow_override=True, populated at load time by
the static registrations (with allow_override=True a registration never
fails, so the error branch of the fold is unreachable). -/
def ModelExportMethodRegistry : Registry ExportMethod :=
  builtinRegistrations.foldl
    (fun r kv =>
      match r.register kv.1 kv.2 with
      | .ok r2 => r2
      | .error _ => r)
    (Registry.mk true [])

/-- The expression model_inputs[name] if model_inputs is not None else None
of the mapping branch: absent sample inputs pass None through, present ones
are indexed by the sub-model name. -/
def indexInputs (model_inputs : Option PyVal) (name : String) :
    Except PyErr (Option PyVal) :=
  match model_inputs with
  | none => .ok none
  | some v =>
    match pyIndex v name with
    | .ok x => .ok (some x)
    | .error e => .error e

/-- Resolution of the export method for one sub-model in the mapping branch
(api.py lines 211 to 215): predictor_type when model_export_method is None,
otherwise the subscript model_export_method[name] — a lookup when the field
is a mapping, a TypeError when it is a plain string. -/
def resolveMethod (mem : Option MethodField) (predictor_type name : String) :
    Except PyErr String :=
  match mem with
  | none => .ok predictor_type
  | some (Sum.inl _) => .error .typeConstraint
  | some (Sum.inr d) =>
    match d.lookup name with
    | some v => .ok v
    | none => .error (.keyNotFound name)

/-- Resolution of the export kwargs for one sub-model in the mapping branch:
an empty dict when model_export_kwargs is None, otherwise the subscript
model_export_kwargs[name]. -/
def resolveKwargs (mkw : Option PyVal) (name : String) : Except PyErr PyVal :=
  match mkw with
  | none => .ok (.dict [])
  | some v => pyIndex v name

/-- The expression model_export_method or predictor_type of the single-model
branch: Python or-chaining on the optional field by truthiness. A non-empty
per-name mapping in this position is passed along unchanged (it then fails as
an unhashable registry key inside _export_single_model). -/
def pyOrStr (mem : Option MethodField) (predictor_type : String) : MethodField :=
  match mem with
  | none => Sum.inl predictor_type
  | some (Sum.inl s) => if s == "" then Sum.inl predictor_type else Sum.inl s
  | some (Sum.inr d) => if d.isEmpty then Sum.inl predictor_type else Sum.inr d

/-- The expression model_export_kwargs or {} of the single-model branch. -/
def pyOrEmptyDict (mkw : Option PyVal) : PyVal :=
  match mkw with
  | none => .dict []
  | some v => if v.truthy then v else .dict []

/-- Embedding of _export_single_model (api.py lines 157 to 175): assert the
model is an nn.Module, look the export method up in the registry (a mapping
in key position is an unhashable-key TypeError), splat the kwargs (which must
be a dict), invoke the implementation's export capability at the save path,
assert the returned load kwargs are a dict, and return a ModelInfo pairing
the save path relative to the predictor root with the predictor type tag. -/
def _export_single_model (predictor_path : FPath) (model : PyObj)
    (input_args : Option PyVal) (save_path : FPath)
    (model_export_method : MethodField) (model_export_kwargs : PyVal)
    (predictor_type : String) : List Event × Except PyErr ModelInfo :=
  match model with
  | .other _ => ([], .error .typeConstraint)
  | .module t =>
    match model_export_method with
    | Sum.inr _ => ([], .error .typeConstraint)
    | Sum.inl meth =>
      match ModelExportMethodRegistry.get meth with
      | .error e => ([], .error e)
      | .ok em =>
        match model_export_kwargs with
        | .dict kw =>
          match em.exportFn (.module t) input_args save_path kw with
          | (ret, extl) =>
            match ret with
            | .dict _ =>
              (Event.exportCall meth save_path :: extl.map Event.custom,
               .ok { path := relpath save_path predictor_path, type := predictor_type })
            | _ =>
              (Event.exportCall meth save_path :: extl.map Event.custom,
               .error .typeConstraint)
        | _ => ([], .error .typeConstraint)

/-- The per-sub-model loop of the mapping branch of default_export_predictor
(api.py lines 203 to 224): for each named sub-model, compute the save path
predictor_path/name, resolve inputs, method and kwargs in the argument order
of the source, invoke _export_single_model, and collect the name-to-ModelInfo
entries; an exception propagates immediately with the events so far. -/
def exportEach (model_inputs : Option PyVal) (mem : Option MethodField)
    (mkw : Option PyVal) (predictor_path : FPath) (predictor_type : String) :
    List (String × PyObj) → List Event × Except PyErr (List (String × ModelInfo))
  | [] => ([], .ok [])
  | (name, mo) :: rest =>
    let save_path := predictor_path ++ [name]
    match indexInputs model_inputs name with
    | .error e => ([], .error e)
    | .ok input_args =>
      match resolveMethod mem predictor_type name with
      | .error e => ([], .error e)
      | .ok meth =>
        match resolveKwargs mkw name with
        | .error e => ([], .error e)
        | .ok kw =>
          match _export_single_model predictor_path mo input_args save_path
              (Sum.inl meth) kw predictor_type with
          | (evs, .error e) => (evs, .error e)
          | (evs, .ok mi) =>
            match exportEach model_inputs mem mkw predictor_path predictor_type rest with
            | (evs2, .error e) => (evs ++ evs2, .error e)
            | (evs2, .ok infos) => (evs ++ evs2, .ok ((name, mi) :: infos))

/-- The expression export_config.data_generator(inputs) if a data generator
is present, else None. -/
def genInputs (dg : Option (Nat → PyVal)) (inputs : Nat) : Option PyVal :=
  match dg with
  | some g => some (g inputs)
  | none => none

/-- Embedding of default_export_predictor (api.py lines 178 to 245): assert
the prepare_for_export capability, draw one batch from the loader, obtain the
export configuration, apply the data generator when present, create the
predictor root output_dir/predictor_type, export the sub-model(s) according
to the shape of the model field, and finally write the manifest
predictor_info.json at the predictor root, returning that root. -/
def default_export_predictor (cfg : Cfg) (pytorch_model : PModel)
    (predictor_type : String) (output_dir : FPath) (data_loader : List Nat) :
    List Event × Except PyErr FPath :=
  match PModel.prepare_for_export pytorch_model with
  | none => ([], .error .unsupportedOperation)
  | some prep =>
    match data_loader with
    | [] => ([], .error .stopIteration)
    | inputs :: _ =>
      let export_config := prep cfg inputs predictor_type
      let model_inputs : Option PyVal :=
        genInputs export_config.data_generator inputs
      let predictor_path := output_dir ++ [predictor_type]
      let mkEv := Event.mkdirs predictor_path
      match export_config.model with
      | .mapping entries =>
        match exportEach model_inputs export_config.model_export_method
            export_config.model_export_kwargs predictor_path predictor_type entries with
        | (evs, .error e) => (mkEv :: evs, .error e)
        | (evs, .ok models_info) =>
          let info : PredictorInfo :=
            { preprocess_info := export_config.preprocess_info,
              postprocess_info := export_config.postprocess_info,
              run_func_info := export_config.run_func_info,
              modelEntry := .models models_info }
          (mkEv :: evs ++ [Event.writeJson (predictor_path ++ ["predictor_info.json"]) info],
           .ok predictor_path)
      | .single mo =>
        match _export_single_model predictor_path mo model_inputs predictor_path
            (pyOrStr export_config.model_export_method predictor_type)
            (pyOrEmptyDict export_config.model_export_kwargs) predictor_type with
        | (evs, .error e) => (mkEv :: evs, .error e)
        | (evs, .ok mi) =>
          let info : PredictorInfo :=
            { preprocess_info := export_config.preprocess_info,
              postprocess_info := export_config.postprocess_info,
              run_func_info := export_config.run_func_info,
              modelEntry := .model mi }
          (mkEv :: evs ++ [Event.writeJson (predictor_path ++ ["predictor_info.json"]) info],
           .ok predictor_path)

/-- Embedding of export_predictor (api.py lines 126 to 154): delegate to the
model's own export_predictor capability when it exposes one, otherwise run
default_export_predictor. -/
def export_predictor (cfg : Cfg) (pytorch_model : PModel)
    (predictor_type : String) (output_dir : FPath) (data_loader : List Nat) :
    List Event × Except PyErr FPath :=
  match PModel.export_predictor pytorch_model with
  | some f => f cfg predictor_type output_dir data_loader
  | none => default_export_predictor cfg pytorch_model predictor_type output_dir data_loader

/-- The conversion step of the int8 path (api.py lines 106 to 114): the
eager-mode generic convert when configured, otherwise the model's own
prepare_for_quant_convert hook when present, otherwise the generic
FX-graph-mode convert. -/
def quantConvert (env : Env) (cfg : Cfg) (m : PModel) : PModel :=
  if cfg.eager_mode then env.quantization_convert m
  else
    match PModel.prepare_for_quant_convert m with
    | some f => f cfg
    | none => env.convert_fx m

/-- Embedding of convert_and_export_predictor (api.py lines 86 to 123): when
"int8" occurs in predictor_type and the model was not trained with
quantization awareness, run post-training quantization and assert no
batch-norm remains, then apply the conversion step above; otherwise fuse the
model and only warn when batch-norm remains; finally delegate to
export_predictor on the converted model. -/
def convert_and_export_predictor (env : Env) (cfg : Cfg) (pytorch_model : PModel)
    (predictor_type : String) (output_dir : FPath) (data_loader : List Nat) :
    List Event × Except PyErr FPath :=
  if strContainsSub predictor_type "int8" then
    match
      (if !cfg.qat_enabled then
        let m := env.post_training_quantize cfg pytorch_model data_loader
        if env.check_bn_exist m then ([Event.ptq], Except.error PyErr.assertionFailure)
        else ([Event.ptq], Except.ok m)
      else ([], Except.ok pytorch_model)) with
    | (evs, .error e) => (evs, .error e)
    | (evs, .ok m1) =>
      let out := export_predictor cfg (quantConvert env cfg m1) predictor_type output_dir data_loader
      (evs ++ out.1, out.2)
  else
    let m := env.fuse_model pytorch_model
    let out := export_predictor cfg m predictor_type output_dir data_loader
    (if env.count_bn_exist m > 0 then Event.warnBN :: out.1 else out.1, out.2)

/-- The manifest writes contained in a trace, in order. -/
def manifestsOf (evs : List Event) : List (FPath × PredictorInfo) :=
  evs.filterMap fun e =>
    match e with
    | .writeJson p i => some (p, i)
    | _ => none

/-- The save paths of the export-method invocations in a trace, in order. -/
def exportPathsOf (evs : List Event) : List FPath :=
  evs.filterMap fun e =>
    match e with
    | .exportCall _ p => some p
    | _ => none

/-- A configuration with quantization-aware training disabled and
FX-graph-mode conversion, used to instantiate the theorems below. -/
def wCfg : Cfg := ⟨false, false, "qnnpack"⟩

/-- A model whose export configuration declares one single sub-model. -/
def wPlainModel : PModel :=
  .mk (some fun _ _ _ => { model := ModelField.single (PyObj.module 7) }) none none 0

/-- A model whose export configuration declares a two-entry mapping. -/
def wMappingModel : PModel :=
  .mk (some fun _ _ _ =>
    { model := ModelField.mapping [("backbone", PyObj.module 1), ("head", PyObj.module 2)] })
    none none 0

/-- A model exposing its own export_predictor capability. -/
def wCustomModel : PModel :=
  .mk none (some fun _ _ _ _ => ([Event.custom 9], Except.ok ["custom"])) none 0

/-- A model mapping paired with a single-string model_export_method. -/
def wSingleMethodModel : PModel :=
  .mk (some fun _ _ _ =>
    { model := ModelField.mapping [("backbone", PyObj.module 1)],
      model_export_method := some (Sum.inl "torchscript") }) none none 0

/-- A model mapping whose model_export_method mapping misses the key of the
first sub-model. -/
def wMissingKeyModel : PModel :=
  .mk (some fun _ _ _ =>
    { model := ModelField.mapping [("backbone", PyObj.module 1), ("head", PyObj.module 2)],
      model_export_method := some (Sum.inr [("head", "torchscript")]) }) none none 0

/-- A model whose tag marks remaining batch-norm layers. -/
def wBNModel : PModel := .mk none none none 1

/-- A model whose tag marks no remaining batch-norm layers. -/
def wCleanModel : PModel := .mk none none none 0

/-- A concrete environment of external capabilities in which the batch-norm
inspectors read the model's tag and the conversions are identities. -/
def wEnv : Env :=
  { post_training_quantize := fun _ m _ => m,
    check_bn_exist := fun m => m.tag == 1,
    count_bn_exist := fun m => m.tag,
    fuse_model := fun m => m,
    quantization_convert := fun m => m,
    convert_fx := fun m => m }

@[simp] theorem manifestsOf_nil : manifestsOf [] = [] := rfl

@[simp] theorem manifestsOf_cons_mkdirs (p : FPath) (l : List Event) :
    manifestsOf (Event.mkdirs p :: l) = manifestsOf l := rfl

@[simp] theorem manifestsOf_cons_exportCall (m : String) (p : FPath) (l : List Event) :
    manifestsOf (Event.exportCall m p :: l) = manifestsOf l := rfl

@[simp] theorem manifestsOf_cons_writeJson (p : FPath) (i : PredictorInfo) (l : List Event) :
    manifestsOf (Event.writeJson p i :: l) = (p, i) :: manifestsOf l := rfl

@[simp] theorem manifestsOf_cons_custom (n : Nat) (l : List Event) :
    manifestsOf (Event.custom n :: l) = manifestsOf l := rfl

@[simp] theorem manifestsOf_append (a b : List Event) :
    manifestsOf (a ++ b) = manifestsOf a ++ manifestsOf b := by
  simp [manifestsOf, List.filterMap_append]

@[simp] theorem manifestsOf_map_custom (l : List Nat) :
    manifestsOf (l.map Event.custom) = [] := by
  induction l with
  | nil => rfl
  | cons n t ih => simpa using ih

@[simp] theorem exportPathsOf_nil : exportPathsOf [] = [] := rfl

@[simp] theorem exportPathsOf_cons_mkdirs (p : FPath) (l : List Event) :
    exportPathsOf (Event.mkdirs p :: l) = exportPathsOf l := rfl

@[simp] theorem exportPathsOf_cons_exportCall (m : String) (p : FPath) (l : List Event) :
    exportPathsOf (Event.exportCall m p :: l) = p :: exportPathsOf l := rfl

@[simp] theorem exportPathsOf_cons_writeJson (p : FPath) (i : PredictorInfo) (l : List Event) :
    exportPathsOf (Event.writeJson p i :: l) = exportPathsOf l := rfl

@[simp] theorem exportPathsOf_cons_custom (n : Nat) (l : List Event) :
    exportPathsOf (Event.custom n :: l) = exportPathsOf l := rfl

@[simp] theorem exportPathsOf_append (a b : List Event) :
    exportPathsOf (a ++ b) = exportPathsOf a ++ exportPathsOf b := by
  simp [exportPathsOf, List.filterMap_append]

@[simp] theorem exportPathsOf_map_custom (l : List Nat) :
    exportPathsOf (l.map Event.custom) = [] := by
  induction l with
  | nil => rfl
  | cons n t ih => simpa using ih

theorem stripCommon_self (p : List String) : stripCommon p p = ([], []) := by
  induction p with
  | nil => rfl
  | cons a t ih => simp [stripCommon, ih]

theorem relpath_self (p : List String) : relpath p p = ["."] := by
  simp [relpath, stripCommon_self]

theorem stripCommon_append_single (p : List String) (n : String) :
    stripCommon (p ++ [n]) p = ([n], []) := by
  induction p with
  | nil => rfl
  | cons a t ih => simp [stripCommon, ih]

theorem relpath_append_single (p : List String) (n : String) :
    relpath (p ++ [n]) p = [n] := by
  simp [relpath, stripCommon_append_single]

theorem lookup_setEntry_self {α : Type} (l : List (String × α)) (k : String) (v : α) :
    List.lookup k (setEntry l k v) = some v := by
  induction l with
  | nil => simp [setEntry, List.lookup]
  | cons hd t ih =>
    obtain ⟨k2, v2⟩ := hd
    by_cases h : k2 = k
    · simp [setEntry, h, List.lookup]
    · have hb : (k2 == k) = false := by simpa using h
      have hb2 : (k == k2) = false := by
        simpa using fun hkk => h hkk.symm
      simp [setEntry, hb, List.lookup, hb2, ih]

theorem export_single_ok (root : FPath) (model : PyObj) (ia : Option PyVal)
    (sp : FPath) (mef : MethodField) (kw : PyVal) (pt : String)
    (evs : List Event) (mi : ModelInfo)
    (h : _export_single_model root model ia sp mef kw pt = (evs, .ok mi)) :
    exportPathsOf evs = [sp] ∧ manifestsOf evs = [] ∧
    mi = ⟨relpath sp root, pt⟩ := by
  unfold _export_single_model at h
  repeat' split at h
  all_goals simp_all
  all_goals (obtain ⟨hevs, hmi⟩ := h; subst hevs; subst hmi; simp)

theorem exportEach_ok (mi_in : Option PyVal) (mem : Option MethodField)
    (mkw : Option PyVal) (root : FPath) (pt : String)
    (entries : List (String × PyObj)) :
    ∀ (evs : List Event) (infos : List (String × ModelInfo)),
      exportEach mi_in mem mkw root pt entries = (evs, .ok infos) →
      infos.map Prod.fst = entries.map Prod.fst ∧
      exportPathsOf evs = entries.map (fun e => root ++ [e.1]) ∧
      manifestsOf evs = [] := by
  induction entries with
  | nil =>
    intro evs infos h
    simp only [exportEach, Prod.mk.injEq, Except.ok.injEq] at h
    obtain ⟨h1, h2⟩ := h
    subst h1; subst h2
    simp
  | cons hd tl ih =>
    intro evs infos h
    obtain ⟨name, mo⟩ := hd
    unfold exportEach at h
    cases hii : indexInputs mi_in name with
    | error e => rw [hii] at h; simp at h
    | ok ia =>
      rw [hii] at h
      simp only [] at h
      cases hrm : resolveMethod mem pt name with
      | error e => rw [hrm] at h; simp at h
      | ok meth =>
        rw [hrm] at h
        simp only [] at h
        cases hrk : resolveKwargs mkw name with
        | error e => rw [hrk] at h; simp at h
        | ok kwv =>
          rw [hrk] at h
          simp only [] at h
          rcases hes : _export_single_model root mo ia (root ++ [name])
              (Sum.inl meth) kwv pt with ⟨evs1, r1⟩
          cases r1 with
          | error e => rw [hes] at h; simp at h
          | ok mi =>
            rw [hes] at h
            simp only [] at h
            rcases hee : exportEach mi_in mem mkw root pt tl with ⟨evs2, r2⟩
            cases r2 with
            | error e => rw [hee] at h; simp at h
            | ok infos2 =>
              rw [hee] at h
              simp only [Prod.mk.injEq, Except.ok.injEq] at h
              obtain ⟨hevs, hinfos⟩ := h
              subst hevs; subst hinfos
              obtain ⟨hp1, hp2, hp3⟩ := export_single_ok root mo ia (root ++ [name])
                (Sum.inl meth) kwv pt evs1 mi hes
              obtain ⟨hq1, hq2, hq3⟩ := ih evs2 infos2 hee
              simp [hp1, hp2, hp3, hq1, hq2, hq3]

theorem default_single_ok (cfg : Cfg) (pm : PModel) (pt : String) (out : FPath)
    (b : Nat) (rest : List Nat)
    (prep : Cfg → Nat → String → PredictorExportConfig) (mo : PyObj)
    (evs : List Event) (p : FPath)
    (hprep : PModel.prepare_for_export pm = some prep)
    (hmo : (prep cfg b pt).model = ModelField.single mo)
    (hrun : default_export_predictor cfg pm pt out (b :: rest) = (evs, .ok p)) :
    ∃ evs1 mi,
      evs = Event.mkdirs (out ++ [pt]) :: evs1 ++
          [Event.writeJson ((out ++ [pt]) ++ ["predictor_info.json"])
            ⟨(prep cfg b pt).preprocess_info, (prep cfg b pt).postprocess_info,
             (prep cfg b pt).run_func_info, .model mi⟩] ∧
      exportPathsOf evs1 = [out ++ [pt]] ∧ manifestsOf evs1 = [] ∧
      mi = ⟨["."], pt⟩ ∧ p = out ++ [pt] := by
  unfold default_export_predictor at hrun
  rw [hprep] at hrun
  simp only [] at hrun
  rw [hmo] at hrun
  simp only [] at hrun
  rcases hes : _export_single_model (out ++ [pt]) mo
      (genInputs (prep cfg b pt).data_generator b) (out ++ [pt])
      (pyOrStr (prep cfg b pt).model_export_method pt)
      (pyOrEmptyDict (prep cfg b pt).model_export_kwargs) pt with ⟨evs1, r1⟩
  cases r1 with
  | error e => rw [hes] at hrun; simp at hrun
  | ok mi =>
    rw [hes] at hrun
    simp only [Prod.mk.injEq, Except.ok.injEq] at hrun
    obtain ⟨hevs, hp⟩ := hrun
    obtain ⟨h1, h2, h3⟩ := export_single_ok (out ++ [pt]) mo
      (genInputs (prep cfg b pt).data_generator b) (out ++ [pt])
      (pyOrStr (prep cfg b pt).model_export_method pt)
      (pyOrEmptyDict (prep cfg b pt).model_export_kwargs) pt evs1 mi hes
    refine ⟨evs1, mi, ?_, h1, h2, ?_, hp.symm⟩
    · rw [← hevs]
    · rw [h3, relpath_self]

theorem default_mapping_ok (cfg : Cfg) (pm : PModel) (pt : String) (out : FPath)
    (b : Nat) (rest : List Nat)
    (prep : Cfg → Nat → String → PredictorExportConfig)
    (entries : List (String × PyObj))
    (evs : List Event) (p : FPath)
    (hprep : PModel.prepare_for_export pm = some prep)
    (hmo : (prep cfg b pt).model = ModelField.mapping entries)
    (hrun : default_export_predictor cfg pm pt out (b :: rest) = (evs, .ok p)) :
    ∃ evs1 infos,
      evs = Event.mkdirs (out ++ [pt]) :: evs1 ++
          [Event.writeJson ((out ++ [pt]) ++ ["predictor_info.json"])
            ⟨(prep cfg b pt).preprocess_info, (prep cfg b pt).postprocess_info,
             (prep cfg b pt).run_func_info, .models infos⟩] ∧
      exportPathsOf evs1 = entries.map (fun e => (out ++ [pt]) ++ [e.1]) ∧
      manifestsOf evs1 = [] ∧
      infos.map Prod.fst = entries.map Prod.fst ∧ p = out ++ [pt] := by
  unfold default_export_predictor at hrun
  rw [hprep] at hrun
  simp only [] at hrun
  rw [hmo] at hrun
  simp only [] at hrun
  rcases hee : exportEach (genInputs (prep cfg b pt).data_generator b)
      (prep cfg b pt).model_export_method (prep cfg b pt).model_export_kwargs
      (out ++ [pt]) pt entries with ⟨evs1, r1⟩
  cases r1 with
  | error e => rw [hee] at hrun; simp at hrun
  | ok infos =>
    rw [hee] at hrun
    simp only [Prod.mk.injEq, Except.ok.injEq] at hrun
    obtain ⟨hevs, hp⟩ := hrun
    obtain ⟨h1, h2, h3⟩ := exportEach_ok (genInputs (prep cfg b pt).data_generator b)
      (prep cfg b pt).model_export_method (prep cfg b pt).model_export_kwargs
      (out ++ [pt]) pt entries evs1 infos hee
    exact ⟨evs1, infos, hevs.symm, h2, h3, h1, hp.symm⟩

/-- C1: When the export configuration declares a single model (not a
mapping), default_export_predictor writes a manifest whose per-model entry
sits under the key model, and the sub-model files are written directly at the
predictor root output_dir/predictor_type; when the configuration's model
field is a mapping, the manifest uses the key models with exactly one entry
per name of the mapping, and each sub-model's files are saved under
output_dir/predictor_type/name. -/
theorem claim_C1_manifest_layout (cfg : Cfg) (pm : PModel) (pt : String)
    (out : FPath) (b : Nat) (rest : List Nat)
    (prep : Cfg → Nat → String → PredictorExportConfig)
    (evs : List Event) (p : FPath)
    (hprep : PModel.prepare_for_export pm = some prep)
    (hrun : default_export_predictor cfg pm pt out (b :: rest) = (evs, .ok p)) :
    (∀ mo, (prep cfg b pt).model = ModelField.single mo →
      ∃ info mi,
        manifestsOf evs = [((out ++ [pt]) ++ ["predictor_info.json"], info)] ∧
        info.modelEntry = ManifestModels.model mi ∧
        exportPathsOf evs = [out ++ [pt]]) ∧
    (∀ entries, (prep cfg b pt).model = ModelField.mapping entries →
      ∃ info infos,
        manifestsOf evs = [((out ++ [pt]) ++ ["predictor_info.json"], info)] ∧
        info.modelEntry = ManifestModels.models infos ∧
        infos.map Prod.fst = entries.map Prod.fst ∧
        exportPathsOf evs = entries.map (fun e => (out ++ [pt]) ++ [e.1])) := by
  constructor
  · intro mo hmo
    obtain ⟨evs1, mi, hevs, h1, h2, h3, hp⟩ :=
      default_single_ok cfg pm pt out b rest prep mo evs p hprep hmo hrun
    subst hevs
    refine ⟨⟨(prep cfg b pt).preprocess_info, (prep cfg b pt).postprocess_info,
      (prep cfg b pt).run_func_info, ManifestModels.model mi⟩, mi, ?_, rfl, ?_⟩
    · simp [h2]
    · simp [h1]
  · intro entries hmo
    obtain ⟨evs1, infos, hevs, h1, h2, h3, hp⟩ :=
      default_mapping_ok cfg pm pt out b rest prep entries evs p hprep hmo hrun
    subst hevs
    refine ⟨⟨(prep cfg b pt).preprocess_info, (prep cfg b pt).postprocess_info,
      (prep cfg b pt).run_func_info, ManifestModels.models infos⟩, infos, ?_, rfl, h3, ?_⟩
    · simp [h2]
    · simp [h1]

/-- Witness for claim_C1_manifest_layout at two executable configurations,
one declaring a single model and one declaring a two-entry mapping. -/
theorem claim_C1_witness :
    (∃ info mi,
      manifestsOf (default_export_predictor wCfg wPlainModel "torchscript" ["out"] [3]).1 =
        [((["out"] ++ ["torchscript"]) ++ ["predictor_info.json"], info)] ∧
      info.modelEntry = ManifestModels.model mi ∧
      exportPathsOf (default_export_predictor wCfg wPlainModel "torchscript" ["out"] [3]).1 =
        [["out"] ++ ["torchscript"]]) ∧
    (∃ info infos,
      manifestsOf (default_export_predictor wCfg wMappingModel "torchscript" ["out"] [3]).1 =
        [((["out"] ++ ["torchscript"]) ++ ["predictor_info.json"], info)] ∧
      info.modelEntry = ManifestModels.models infos ∧
      infos.map Prod.fst =
        [("backbone", PyObj.module 1), ("head", PyObj.module 2)].map Prod.fst ∧
      exportPathsOf (default_export_predictor wCfg wMappingModel "torchscript" ["out"] [3]).1 =
        [("backbone", PyObj.module 1), ("head", PyObj.module 2)].map
          (fun e => (["out"] ++ ["torchscript"]) ++ [e.1])) :=
  ⟨(claim_C1_manifest_layout wCfg wPlainModel "torchscript" ["out"] 3 [] _ _ _
      rfl rfl).1 (PyObj.module 7) rfl,
   (claim_C1_manifest_layout wCfg wMappingModel "torchscript" ["out"] 3 [] _ _ _
      rfl rfl).2 [("backbone", PyObj.module 1), ("head", PyObj.module 2)] rfl⟩

/-- C10: In the single-model case, because the save path is the predictor
root itself, the ModelInfo stored under the manifest key model has relative
path "." (the path of the predictor root relative to itself). -/
theorem claim_C10_single_dot (cfg : Cfg) (pm : PModel) (pt : String)
    (out : FPath) (b : Nat) (rest : List Nat)
    (prep : Cfg → Nat → String → PredictorExportConfig) (mo : PyObj)
    (evs : List Event) (p : FPath)
    (hprep : PModel.prepare_for_export pm = some prep)
    (hmo : (prep cfg b pt).model = ModelField.single mo)
    (hrun : default_export_predictor cfg pm pt out (b :: rest) = (evs, .ok p)) :
    ∃ info,
      manifestsOf evs = [((out ++ [pt]) ++ ["predictor_info.json"], info)] ∧
      info.modelEntry = ManifestModels.model ⟨["."], pt⟩ := by
  obtain ⟨evs1, mi, hevs, h1, h2, h3, hp⟩ :=
    default_single_ok cfg pm pt out b rest prep mo evs p hprep hmo hrun
  subst hevs
  subst h3
  exact ⟨⟨(prep cfg b pt).preprocess_info, (prep cfg b pt).postprocess_info,
    (prep cfg b pt).run_func_info, ManifestModels.model ⟨["."], pt⟩⟩,
    by simp [h2], rfl⟩

/-- Witness for claim_C10_single_dot at an executable configuration. -/
theorem claim_C10_witness :
    ∃ info,
      manifestsOf (default_export_predictor wCfg wPlainModel "caffe2" ["o"] [5]).1 =
        [((["o"] ++ ["caffe2"]) ++ ["predictor_info.json"], info)] ∧
      info.modelEntry = ManifestModels.model ⟨["."], "caffe2"⟩ :=
  claim_C10_single_dot wCfg wPlainModel "caffe2" ["o"] 5 [] _ (PyObj.module 7) _ _
    rfl rfl rfl

/-- C5: With a data loader yielding zero batches, default_export_predictor
fails with the empty-draw error before any filesystem effect: the returned
trace is empty, so in particular the predictor root directory was never
created. -/
theorem claim_C5_empty_loader (cfg : Cfg) (pm : PModel) (pt : String)
    (out : FPath) (prep : Cfg → Nat → String → PredictorExportConfig)
    (hprep : PModel.prepare_for_export pm = some prep) :
    default_export_predictor cfg pm pt out [] =
      ([], Except.error PyErr.stopIteration) := by
  unfold default_export_predictor
  rw [hprep]

/-- Witness for claim_C5_empty_loader at an executable model. -/
theorem claim_C5_witness :
    default_export_predictor wCfg wPlainModel "torchscript" ["out"] [] =
      ([], Except.error PyErr.stopIteration) :=
  claim_C5_empty_loader wCfg wPlainModel "torchscript" ["out"] _ rfl

/-- C2: export_predictor delegates entirely to the model's own
export_predictor capability when the model exposes one — the returned value
(trace and result) is exactly the capability's and default_export_predictor
contributes nothing — and calls default_export_predictor otherwise. -/
theorem claim_C2_dispatch (cfg : Cfg) (pm : PModel) (pt : String)
    (out : FPath) (dl : List Nat) :
    (∀ f, PModel.export_predictor pm = some f →
      export_predictor cfg pm pt out dl = f cfg pt out dl) ∧
    (PModel.export_predictor pm = none →
      export_predictor cfg pm pt out dl =
        default_export_predictor cfg pm pt out dl) := by
  constructor
  · intro f hf
    unfold export_predictor
    rw [hf]
  · intro hn
    unfold export_predictor
    rw [hn]

/-- Witness for claim_C2_dispatch: a model exposing the capability returns
exactly the capability's value, a model without it runs the default path. -/
theorem claim_C2_witness :
    export_predictor wCfg wCustomModel "torchscript" ["o"] [1] =
      ([Event.custom 9], Except.ok ["custom"]) ∧
    export_predictor wCfg wPlainModel "torchscript" ["o"] [1] =
      default_export_predictor wCfg wPlainModel "torchscript" ["o"] [1] :=
  ⟨(claim_C2_dispatch wCfg wCustomModel "torchscript" ["o"] [1]).1 _ rfl,
   (claim_C2_dispatch wCfg wPlainModel "torchscript" ["o"] [1]).2 rfl⟩

/-- C8: _export_single_model fails with the type-constraint error whenever
the model is not a recognized model object (an nn.Module); otherwise, when
the registered export capability has been invoked successfully, it returns a
ModelInfo whose path is the save path relative to the predictor root and
whose type is the given predictor type tag. -/
theorem claim_C8_single_model (root : FPath) (ia : Option PyVal) (sp : FPath)
    (mef : MethodField) (kw : PyVal) (pt : String) :
    (∀ t, _export_single_model root (PyObj.other t) ia sp mef kw pt =
      ([], Except.error PyErr.typeConstraint)) ∧
    (∀ mo evs mi,
      _export_single_model root mo ia sp mef kw pt = (evs, Except.ok mi) →
      mi = ⟨relpath sp root, pt⟩) := by
  constructor
  · intro t
    rfl
  · intro mo evs mi h
    exact (export_single_ok root mo ia sp mef kw pt evs mi h).2.2

/-- Witness for claim_C8_single_model at executable arguments: a non-module
object is rejected, a module exported through the registered torchscript
method yields the relative path and type tag. -/
theorem claim_C8_witness :
    _export_single_model ["out", "ts"] (PyObj.other 3) none ["out", "ts"]
        (Sum.inl "torchscript") (PyVal.dict []) "ts" =
      ([], Except.error PyErr.typeConstraint) ∧
    (⟨["."], "ts"⟩ : ModelInfo) = ⟨relpath ["out", "ts"] ["out", "ts"], "ts"⟩ :=
  ⟨(claim_C8_single_model ["out", "ts"] none ["out", "ts"]
      (Sum.inl "torchscript") (PyVal.dict []) "ts").1 3,
   (claim_C8_single_model ["out", "ts"] none ["out", "ts"]
      (Sum.inl "torchscript") (PyVal.dict []) "ts").2 (PyObj.module 5)
      [Event.exportCall "torchscript" ["out", "ts"]] ⟨["."], "ts"⟩ rfl⟩

/-- C3 counterexample: the claimed three-way fallback fails on the code. In
the mapping case a single (non-mapping) model_export_method value is never
used as the export method: the subscript model_export_method[name] on a plain
string is a type error, and a default export run on such a configuration
fails instead of exporting with the single value. -/
theorem claim_C3_counterexample :
    resolveMethod (some (Sum.inl "torchscript")) "caffe2" "backbone" =
      Except.error PyErr.typeConstraint ∧
    resolveMethod (some (Sum.inl "torchscript")) "caffe2" "backbone" ≠
      Except.ok "torchscript" ∧
    default_export_predictor wCfg wSingleMethodModel "caffe2" ["out"] [0] =
      ([Event.mkdirs ["out", "caffe2"]], Except.error PyErr.typeConstraint) := by
  exact ⟨rfl, by simp [resolveMethod], rfl⟩

/-- C3 amended: in the mapping case, the export method for each sub-model is
predictor_type when model_export_method is absent, and otherwise the entry of
model_export_method at the sub-model's name — which requires the field to be
a mapping: a single non-mapping string raises a type error instead of being
used as the method. -/
theorem claim_C3_amended (d : List (String × String)) (s pt name : String) :
    resolveMethod none pt name = Except.ok pt ∧
    (∀ v, d.lookup name = some v →
      resolveMethod (some (Sum.inr d)) pt name = Except.ok v) ∧
    resolveMethod (some (Sum.inl s)) pt name = Except.error PyErr.typeConstraint := by
  refine ⟨rfl, ?_, rfl⟩
  intro v hv
  simp [resolveMethod, hv]

/-- Witness for claim_C3_amended at executable values. -/
theorem claim_C3_witness :
    resolveMethod none "torchscript" "backbone" = Except.ok "torchscript" ∧
    resolveMethod (some (Sum.inr [("backbone", "caffe2")])) "torchscript" "backbone" =
      Except.ok "caffe2" ∧
    resolveMethod (some (Sum.inl "caffe2")) "torchscript" "backbone" =
      Except.error PyErr.typeConstraint :=
  ⟨(claim_C3_amended [("backbone", "caffe2")] "caffe2" "torchscript" "backbone").1,
   (claim_C3_amended [("backbone", "caffe2")] "caffe2" "torchscript" "backbone").2.1
     "caffe2" rfl,
   (claim_C3_amended [("backbone", "caffe2")] "caffe2" "torchscript" "backbone").2.2⟩

/-- C4: Registering an already-present key without override permission fails
with a DuplicateKeyError; with override permission the registration succeeds,
replacing the previous entry, and a subsequent get returns the new
implementation. -/
theorem claim_C4_registry {α : Type} (r : Registry α) (k : String) (v2 : α) :
    ((r.entries.lookup k).isSome = true → r.allow_override = false →
      r.register k v2 = Except.error (PyErr.duplicateKey k)) ∧
    (r.allow_override = true →
      ∃ r2, r.register k v2 = Except.ok r2 ∧ r2.get k = Except.ok v2) := by
  constructor
  · intro h1 h2
    simp [Registry.register, h1, h2]
  · intro h
    refine ⟨{ r with entries := setEntry r.entries k v2 }, ?_, ?_⟩
    · simp [Registry.register, h]
    · simp [Registry.get, lookup_setEntry_self]

/-- Witness for claim_C4_registry at concrete registries over Nat. -/
theorem claim_C4_witness :
    Registry.register (⟨false, [("a", 1)]⟩ : Registry Nat) "a" 2 =
      Except.error (PyErr.duplicateKey "a") ∧
    ∃ r2, Registry.register (⟨true, [("a", 1)]⟩ : Registry Nat) "a" 2 =
        Except.ok r2 ∧ r2.get "a" = Except.ok 2 :=
  ⟨(claim_C4_registry (⟨false, [("a", 1)]⟩ : Registry Nat) "a" 2).1 rfl rfl,
   (claim_C4_registry (⟨true, [("a", 1)]⟩ : Registry Nat) "a" 2).2 rfl⟩

/-- C9: In the mapping case, when model_export_method is a mapping missing a
key present in the model mapping, the per-sub-model lookup fails with the
missing-key error, and the default export run propagates exactly that
error. -/
theorem claim_C9_missing_key (d : List (String × String)) (pt name : String)
    (cfg : Cfg) (pm : PModel) (out : FPath) (b : Nat) (rest : List Nat)
    (prep : Cfg → Nat → String → PredictorExportConfig) (mo : PyObj)
    (entries : List (String × PyObj)) :
    (d.lookup name = none →
      resolveMethod (some (Sum.inr d)) pt name =
        Except.error (PyErr.keyNotFound name)) ∧
    (PModel.prepare_for_export pm = some prep →
      (prep cfg b pt).model = ModelField.mapping ((name, mo) :: entries) →
      (prep cfg b pt).data_generator = none →
      (prep cfg b pt).model_export_method = some (Sum.inr d) →
      d.lookup name = none →
      default_export_predictor cfg pm pt out (b :: rest) =
        ([Event.mkdirs (out ++ [pt])], Except.error (PyErr.keyNotFound name))) := by
  constructor
  · intro h
    simp [resolveMethod, h]
  · intro hprep hmodel hdg hmem hlook
    unfold default_export_predictor
    rw [hprep]
    simp only []
    rw [hmodel]
    simp only []
    rw [hdg, hmem]
    simp [exportEach, genInputs, indexInputs, resolveMethod, hlook]

/-- Witness for claim_C9_missing_key at an executable configuration whose
method mapping misses the first sub-model name. -/
theorem claim_C9_witness :
    resolveMethod (some (Sum.inr [("head", "torchscript")])) "torchscript" "backbone" =
      Except.error (PyErr.keyNotFound "backbone") ∧
    default_export_predictor wCfg wMissingKeyModel "torchscript" ["out"] [0] =
      ([Event.mkdirs (["out"] ++ ["torchscript"])],
       Except.error (PyErr.keyNotFound "backbone")) :=
  ⟨(claim_C9_missing_key [("head", "torchscript")] "torchscript" "backbone" wCfg
      wMissingKeyModel ["out"] 0 []
      (fun _ _ _ =>
        { model := ModelField.mapping
            [("backbone", PyObj.module 1), ("head", PyObj.module 2)],
          model_export_method := some (Sum.inr [("head", "torchscript")]) })
      (PyObj.module 1) [("head", PyObj.module 2)]).1 rfl,
   (claim_C9_missing_key [("head", "torchscript")] "torchscript" "backbone" wCfg
      wMissingKeyModel ["out"] 0 []
      (fun _ _ _ =>
        { model := ModelField.mapping
            [("backbone", PyObj.module 1), ("head", PyObj.module 2)],
          model_export_method := some (Sum.inr [("head", "torchscript")]) })
      (PyObj.module 1) [("head", PyObj.module 2)]).2 rfl rfl rfl rfl rfl⟩

/-- C6: convert_and_export_predictor takes the quantization path exactly on
the substring test for "int8" in predictor_type; on that path, for a model
not trained with quantization awareness, post-training quantization runs on
the data loader before conversion, the run fails with the fatal assertion
when batch-norm layers remain in the quantized model, and otherwise the
converted post-training-quantized model is exported. -/
theorem claim_C6_int8_path (env : Env) (cfg : Cfg) (pm : PModel) (pt : String)
    (out : FPath) (dl : List Nat)
    (hint8 : strContainsSub pt "int8" = true)
    (hqat : cfg.qat_enabled = false) :
    (env.check_bn_exist (env.post_training_quantize cfg pm dl) = true →
      convert_and_export_predictor env cfg pm pt out dl =
        ([Event.ptq], Except.error PyErr.assertionFailure)) ∧
    (env.check_bn_exist (env.post_training_quantize cfg pm dl) = false →
      convert_and_export_predictor env cfg pm pt out dl =
        (Event.ptq ::
            (export_predictor cfg
              (quantConvert env cfg (env.post_training_quantize cfg pm dl))
              pt out dl).1,
         (export_predictor cfg
            (quantConvert env cfg (env.post_training_quantize cfg pm dl))
            pt out dl).2)) := by
  constructor
  · intro hbn
    simp [convert_and_export_predictor, hint8, hqat, hbn]
  · intro hbn
    simp [convert_and_export_predictor, hint8, hqat, hbn]

/-- Witness for claim_C6_int8_path: with batch-norm remaining after
post-training quantization the assertion fires; without it the converted
model is exported after the calibration event. -/
theorem claim_C6_witness :
    convert_and_export_predictor wEnv wCfg wBNModel "torchscript_int8" ["o"] [] =
      ([Event.ptq], Except.error PyErr.assertionFailure) ∧
    convert_and_export_predictor wEnv wCfg wCleanModel "torchscript_int8" ["o"] [] =
      (Event.ptq ::
          (export_predictor wCfg
            (quantConvert wEnv wCfg (wEnv.post_training_quantize wCfg wCleanModel []))
            "torchscript_int8" ["o"] []).1,
       (export_predictor wCfg
          (quantConvert wEnv wCfg (wEnv.post_training_quantize wCfg wCleanModel []))
          "torchscript_int8" ["o"] []).2) :=
  ⟨(claim_C6_int8_path wEnv wCfg wBNModel "torchscript_int8" ["o"] []
      (by decide) rfl).1 rfl,
   (claim_C6_int8_path wEnv wCfg wCleanModel "torchscript_int8" ["o"] []
      (by decide) rfl).2 rfl⟩

/-- C7: On the non-int8 path, the model is fused and exported; remaining
batch-norm layers after fusing only add a logged warning to the trace, the
outcome of the export being unchanged — a non-fatal condition. -/
theorem claim_C7_non_int8 (env : Env) (cfg : Cfg) (pm : PModel) (pt : String)
    (out : FPath) (dl : List Nat)
    (h : strContainsSub pt "int8" = false) :
    convert_and_export_predictor env cfg pm pt out dl =
      ((if env.count_bn_exist (env.fuse_model pm) > 0 then
          Event.warnBN :: (export_predictor cfg (env.fuse_model pm) pt out dl).1
        else (export_predictor cfg (env.fuse_model pm) pt out dl).1),
       (export_predictor cfg (env.fuse_model pm) pt out dl).2) ∧
    (convert_and_export_predictor env cfg pm pt out dl).2 =
      (export_predictor cfg (env.fuse_model pm) pt out dl).2 ∧
    (env.count_bn_exist (env.fuse_model pm) > 0 →
      Event.warnBN ∈ (convert_and_export_predictor env cfg pm pt out dl).1) := by
  have h1 : convert_and_export_predictor env cfg pm pt out dl =
      ((if env.count_bn_exist (env.fuse_model pm) > 0 then
          Event.warnBN :: (export_predictor cfg (env.fuse_model pm) pt out dl).1
        else (export_predictor cfg (env.fuse_model pm) pt out dl).1),
       (export_predictor cfg (env.fuse_model pm) pt out dl).2) := by
    simp [convert_and_export_predictor, h]
  refine ⟨h1, by rw [h1], ?_⟩
  intro hc
  rw [h1]
  simp [hc]

/-- Witness for claim_C7_non_int8 at an executable model with remaining
batch-norm: the warning is logged and the outcome is that of exporting the
fused model. -/
theorem claim_C7_witness :
    (convert_and_export_predictor wEnv wCfg wBNModel "torchscript" ["o"] []).2 =
      (export_predictor wCfg (wEnv.fuse_model wBNModel) "torchscript" ["o"] []).2 ∧
    Event.warnBN ∈ (convert_and_export_predictor wEnv wCfg wBNModel "torchscript" ["o"] []).1 :=
  ⟨(claim_C7_non_int8 wEnv wCfg wBNModel "torchscript" ["o"] [] (by decide)).2.1,
   (claim_C7_non_int8 wEnv wCfg wBNModel "torchscript" ["o"] [] (by decide)).2.2
     (by decide)⟩
